import Mathlib

set_option linter.unusedVariables false

/-!
A shallow embedding of the dc.js BaseMixin (src/base/base-mixin.js): the
pluggable filter engine, the render lifecycle with its mandatory-attribute
check and geometry cache, and the chart-group commit gate.  Stateful methods
become functions from a Chart record to an updated Chart record; calls into
external collaborators (the crossfilter dimension, the group-wide fan-out,
console logging, event listeners) are recorded in logs inside the record so
that theorems can count and inspect them.
-/

namespace DC

/-- Discriminator string carried by the tagged dc filter objects, the
filterType field.  The source compares it against the string RangedFilter. -/
inductive FilterType
  | rangedFilter
  | twoDimensionalFilter
  | rangedTwoDimensionalFilter
deriving DecidableEq

/-- A tagged dc filter object.  In the source these are Array subclasses
carrying a filterType discriminator and an isFiltered predicate; the field
components lists the array elements (a RangedFilter is the two-element array
of low and high, a TwoDimensionalFilter has two components, a
RangedTwoDimensionalFilter four).  Every dc filter kind has at least two
components, so coercing such an object to a number inside a JavaScript
relational comparison goes through the comma-joined string and yields NaN. -/
structure TaggedFilter where
  filterType : FilterType
  isFiltered : Int → Bool
  components : List Int

/-- A filter value: either a plain value (modelled as an integer) or a tagged
dc filter object. -/
inductive Filter
  | value (v : Int)
  | tagged (t : TaggedFilter)

/-- The JavaScript test a <= b && a >= b between two filter values, the
containment check used by the default has and remove handlers.  For two plain
numbers this is numeric equality.  For a number against a tagged filter the
object coerces through its comma-joined string to NaN, so both comparisons are
false.  For two tagged filters both sides coerce to their comma-joined
strings, and the conjunction of both string comparisons is string equality,
which for canonical decimal components is equality of the component lists. -/
def jsBetween : Filter → Filter → Bool
  | Filter.value x, Filter.value y => decide (x = y)
  | Filter.tagged t, Filter.tagged u => decide (t.components = u.components)
  | _, _ => false

/-- The JavaScript test f <= d && f >= d between a filter and a plain datum,
used inside the predicate installed by the default filter handler.  A plain
value matches on equality; a tagged filter coerces to NaN against a number, so
the check is false. -/
def jsBetweenDatum : Filter → Int → Bool
  | Filter.value v, d => decide (v = d)
  | Filter.tagged _, _ => false

/-- One filtering operation applied to the crossfilter dimension, per the
external data-source interface: dimension.filter(null) clears,
dimension.filterExact, dimension.filterRange, dimension.filterFunction. -/
inductive DimOp
  | clear
  | filterExact (f : Filter)
  | filterRange (f : Filter)
  | filterFunction (p : Int → Bool)

/-- Body of the predicate installed by the last branch of the default filter
handler: a datum passes when some filter either has an isFiltered member that
accepts it, or passes the plain containment check against the datum. -/
def defaultFilterFunctionBody (filters : List Filter) (d : Int) : Bool :=
  filters.any fun f =>
    (match f with
     | Filter.tagged t => t.isFiltered d
     | Filter.value _ => false) || jsBetweenDatum f d

/-- The dimension operation chosen by the default filter handler from the
shape of the filter list, translating its if chain: empty list clears; a
single element without isFiltered is an exact filter; a single RangedFilter is
a range filter; anything else installs the predicate. -/
def _defaultFilterDimOp : List Filter → DimOp
  | [] => DimOp.clear
  | [Filter.value v] => DimOp.filterExact (Filter.value v)
  | [Filter.tagged t] =>
      if t.filterType = FilterType.rangedFilter then
        DimOp.filterRange (Filter.tagged t)
      else
        DimOp.filterFunction (defaultFilterFunctionBody [Filter.tagged t])
  | fs => DimOp.filterFunction (defaultFilterFunctionBody fs)

/-- The default filter handler.  A handler receives the dimension and the
candidate list; it is modelled as returning the list of dimension operations
it performs together with its return value, where none models a falsy
(undefined or null) return.  The default performs exactly one operation and
returns the filter list unchanged. -/
def _defaultFilterHandler (filters : List Filter) :
    List DimOp × Option (List Filter) :=
  ([_defaultFilterDimOp filters], some filters)

/-- The default has-filter handler: with a null or undefined argument
(modelled as none), true when the list is non-empty; otherwise true when some
element passes the containment check against the argument. -/
def _defaultHasFilterHandler (filters : List Filter) : Option Filter → Bool
  | none => decide (0 < filters.length)
  | some f => filters.any fun g => jsBetween f g

/-- The default remove-filter handler: splice out the first element passing
the containment check against the argument. -/
def _defaultRemoveFilterHandler : List Filter → Filter → List Filter
  | [], _ => []
  | g :: gs, f =>
      if jsBetween g f then gs else g :: _defaultRemoveFilterHandler gs f

/-- The default add-filter handler: push the argument at the end. -/
def _defaultAddFilterHandler (filters : List Filter) (f : Filter) :
    List Filter :=
  filters ++ [f]

/-- The default reset-filter handler: return a fresh empty list. -/
def _defaultResetFilterHandler (filters : List Filter) : List Filter := []

/-- Event names dispatched through the d3 dispatcher.  The filtered event
carries the toggled value and is logged separately. -/
inductive EventName
  | preRender
  | postRender
  | preRedraw
  | postRedraw
  | zoomed
  | renderlet
  | pretransition

/-- The two exception kinds thrown by the core. -/
inductive DcError
  | invalidState (msg : String)
  | badArgument (msg : String)

/-- A group-wide fan-out pass through the chart-group registry:
core.redrawAll or core.renderAll on a group identifier. -/
inductive FanOut
  | redrawAll (chartGroup : String)
  | renderAll (chartGroup : String)

/-- A width or height calculator: a constant produced by utils.constant, the
default box-measuring calculator, or a user-supplied function (modelled as a
function of the measured anchor box). -/
inductive SizeCalc
  | constant (n : Int)
  | defaultCalc
  | custom (f : Option Int → Int)

/-- Argument to the width and height setters: null, a number, or a function.
A falsy number (zero) behaves like null. -/
inductive SizeArg
  | nullArg
  | num (n : Int)
  | fn (f : Option Int → Int)

/-- Argument to the one-argument filter method after the structural sniffing
in the source: null resets; an array whose first element is an array (and
which is not itself filter-tagged) toggles each inner value; anything else is
a single toggle. -/
inductive FilterArg
  | null
  | values (vs : List Filter)
  | single (f : Filter)

/-- The observable state of a BaseMixin chart.  Configuration fields mirror
the constructor; the log fields (dimOps, filteredEvents, firedEvents,
commitCalls, consoleLog, fanOuts, doRenderCount, measureCount,
pendingTransitionEvents) record the calls made into external collaborators.
The dimension field is none when unset, and some b when a dimension is bound,
with b recording whether it has a filter method.  The attrs field models the
truthiness of the dynamic member access in checkForMandatoryAttributes: none
when the member this[a] is itself falsy, some b when calling it returns a
value of truthiness b. -/
structure Chart where
  filters : List Filter
  dimension : Option Bool
  filterHandler : List Filter → List DimOp × Option (List Filter)
  hasFilterHandler : List Filter → Option Filter → Bool
  removeFilterHandler : List Filter → Filter → List Filter
  addFilterHandler : List Filter → Filter → List Filter
  resetFilterHandler : List Filter → List Filter
  dimOps : List DimOp
  filteredEvents : List FilterArg
  firedEvents : List EventName
  commitHandler : Option (Bool → List (Option String))
  commitCalls : List Bool
  consoleLog : List String
  fanOuts : List FanOut
  chartGroup : String
  mandatoryAttributesList : Option (List String)
  attrs : String → Option Bool
  anchorName : String
  doRenderCount : Nat
  widthCache : Option Int
  heightCache : Option Int
  widthCalc : SizeCalc
  heightCalc : SizeCalc
  minWidth : Int
  minHeight : Int
  anchorBoxWidth : Option Int
  anchorBoxHeight : Option Int
  measureCount : Nat
  transitionDuration : Int
  hasSvg : Bool
  pendingTransitionEvents : List EventName

/-- The hasFilter method: delegate to the pluggable has-filter handler. -/
def Chart.hasFilter (c : Chart) (f : Option Filter) : Bool :=
  c.hasFilterHandler c.filters f

/-- The applyFilters method: when a dimension with a filter method is bound,
invoke the filter handler (logging its dimension operations); when the
handler returns a truthy list, that list replaces the candidate, otherwise
the candidate is returned unchanged. -/
def Chart.applyFilters (c : Chart) (filters : List Filter) :
    Chart × List Filter :=
  match c.dimension with
  | some true =>
      let res := c.filterHandler filters
      let c' := { c with dimOps := c.dimOps ++ res.1 }
      match res.2 with
      | some fs' => (c', fs')
      | none => (c', filters)
  | _ => (c, filters)

/-- The one-argument filter method: compute the candidate list (reset on
null, toggle each inner value of a nested array, or a single toggle through
the has, remove and add handlers), pass it through applyFilters, store the
result and fire the filtered event with the original argument.  The
turnOnControls and turnOffControls calls mutate only the DOM and are outside
this model. -/
def Chart.filter (c : Chart) (arg : FilterArg) : Chart :=
  let filters :=
    match arg with
    | FilterArg.values vs =>
        vs.foldl
          (fun fs f =>
            if c.hasFilterHandler fs (some f) then c.removeFilterHandler fs f
            else c.addFilterHandler fs f)
          c.filters
    | FilterArg.null => c.resetFilterHandler c.filters
    | FilterArg.single f =>
        if c.hasFilterHandler c.filters (some f) then
          c.removeFilterHandler c.filters f
        else c.addFilterHandler c.filters f
  let res := c.applyFilters filters
  { res.1 with filters := res.2,
               filteredEvents := res.1.filteredEvents ++ [arg] }

/-- The replaceFilter method: overwrite the stored list with the reset
handler result, then run the ordinary filter toggle. -/
def Chart.replaceFilter (c : Chart) (arg : FilterArg) : Chart :=
  Chart.filter { c with filters := c.resetFilterHandler c.filters } arg

/-- The zero-argument filter method: first stored filter or null. -/
def Chart.filterGet (c : Chart) : Option Filter :=
  c.filters.head?

/-- The default width and height calculator: the measured box dimension when
present, non-zero and greater than the configured minimum, else the minimum. -/
def defaultSizeValue (box : Option Int) (minSize : Int) : Int :=
  match box with
  | some w => if w ≠ 0 ∧ minSize < w then w else minSize
  | none => minSize

/-- Invoke the current width calculator against the anchor node; the default
and custom calculators read the anchor box, which is counted as a
measurement. -/
def Chart.evalWidthCalc (c : Chart) : Chart × Int :=
  match c.widthCalc with
  | SizeCalc.constant n => (c, n)
  | SizeCalc.defaultCalc =>
      ({ c with measureCount := c.measureCount + 1 },
        defaultSizeValue c.anchorBoxWidth c.minWidth)
  | SizeCalc.custom f =>
      ({ c with measureCount := c.measureCount + 1 }, f c.anchorBoxWidth)

/-- The width getter: when the cache does not hold a number, invoke the
calculator once and cache the result. -/
def Chart.width (c : Chart) : Chart × Int :=
  match c.widthCache with
  | some w => (c, w)
  | none =>
      match c.evalWidthCalc with
      | (c', w) => ({ c' with widthCache := some w }, w)

/-- The width setter: install a constant calculator for a truthy number, the
default calculator for a falsy argument, or the given function; always clear
the cache. -/
def Chart.widthSet (c : Chart) (arg : SizeArg) : Chart :=
  let newCalc :=
    match arg with
    | SizeArg.num n =>
        if n ≠ 0 then SizeCalc.constant n else SizeCalc.defaultCalc
    | SizeArg.fn f => SizeCalc.custom f
    | SizeArg.nullArg => SizeCalc.defaultCalc
  { c with widthCalc := newCalc, widthCache := none }

/-- Invoke the current height calculator against the anchor node. -/
def Chart.evalHeightCalc (c : Chart) : Chart × Int :=
  match c.heightCalc with
  | SizeCalc.constant n => (c, n)
  | SizeCalc.defaultCalc =>
      ({ c with measureCount := c.measureCount + 1 },
        defaultSizeValue c.anchorBoxHeight c.minHeight)
  | SizeCalc.custom f =>
      ({ c with measureCount := c.measureCount + 1 }, f c.anchorBoxHeight)

/-- The height getter, mirroring the width getter. -/
def Chart.height (c : Chart) : Chart × Int :=
  match c.heightCache with
  | some h => (c, h)
  | none =>
      match c.evalHeightCalc with
      | (c', h) => ({ c' with heightCache := some h }, h)

/-- The height setter, mirroring the width setter. -/
def Chart.heightSet (c : Chart) (arg : SizeArg) : Chart :=
  let newCalc :=
    match arg with
    | SizeArg.num n =>
        if n ≠ 0 then SizeCalc.constant n else SizeCalc.defaultCalc
    | SizeArg.fn f => SizeCalc.custom f
    | SizeArg.nullArg => SizeCalc.defaultCalc
  { c with heightCalc := newCalc, heightCache := none }

/-- Message of the InvalidStateException thrown by
checkForMandatoryAttributes. -/
def mandatoryMessage (a anchorId : String) : String :=
  "Mandatory attribute chart." ++ a ++ " is missing on chart[#" ++
    anchorId ++ "]"

/-- The checkForMandatoryAttributes method: throw InvalidState when the named
member is falsy or calling it yields a falsy value. -/
def Chart.checkForMandatoryAttributes (c : Chart) (a : String) :
    Option DcError :=
  match c.attrs a with
  | some true => none
  | _ => some (DcError.invalidState (mandatoryMessage a c.anchorName))

/-- The forEach over the mandatory attribute list inside render: the first
thrown exception aborts the iteration. -/
def Chart.checkMandatoryList (c : Chart) : List String → Option DcError
  | [] => none
  | a :: rest =>
      match c.checkForMandatoryAttributes a with
      | some e => some e
      | none => c.checkMandatoryList rest

/-- The renderlet activation tail shared by render and redraw: fire
pretransition, then either schedule renderlet and the terminal event after
the transition (when a positive duration and an svg are present) or fire them
synchronously. -/
def Chart.activateRenderlets (c : Chart) (ev : Option EventName) : Chart :=
  let c1 := { c with firedEvents := c.firedEvents ++ [EventName.pretransition] }
  let tail :=
    EventName.renderlet ::
      (match ev with
       | some e => [e]
       | none => [])
  if 0 < c1.transitionDuration ∧ c1.hasSvg then
    { c1 with pendingTransitionEvents := c1.pendingTransitionEvents ++ tail }
  else
    { c1 with firedEvents := c1.firedEvents ++ tail }

/-- The render method: clear the geometry caches, fire preRender, check the
mandatory attributes (an InvalidState failure aborts here), invoke the
type-specific draw hook (counted in doRenderCount; the base hook does
nothing), then run the renderlet activation with postRender.  The legend
branch mutates only an attached legend widget and is outside this model. -/
def Chart.render (c : Chart) : Chart × Option DcError :=
  let c0 :=
    { c with widthCache := none, heightCache := none,
             firedEvents := c.firedEvents ++ [EventName.preRender] }
  let err :=
    match c0.mandatoryAttributesList with
    | some l => c0.checkMandatoryList l
    | none => none
  match err with
  | some e => (c0, some e)
  | none =>
      let c1 := { c0 with doRenderCount := c0.doRenderCount + 1 }
      (c1.activateRenderlets (some EventName.postRender), none)

/-- The callback handed to the commit handler: on an error, log it to the
console; otherwise run the group-wide fan-out. -/
def commitCallback (c : Chart) (fan : FanOut) : Option String → Chart
  | some e => { c with consoleLog := c.consoleLog ++ [e] }
  | none => { c with fanOuts := c.fanOuts ++ [fan] }

/-- The redrawGroup method: with a commit handler bound, invoke it with the
flag false and a callback that redraws the group only on success; without
one, redraw the group immediately.  A handler is modelled as a function from
the flag to the list of callback invocations it performs (each an optional
error); commitCalls logs the flag passed to the handler. -/
def Chart.redrawGroup (c : Chart) : Chart :=
  match c.commitHandler with
  | some h =>
      let c1 := { c with commitCalls := c.commitCalls ++ [false] }
      (h false).foldl
        (fun acc e => commitCallback acc (FanOut.redrawAll acc.chartGroup) e) c1
  | none => { c with fanOuts := c.fanOuts ++ [FanOut.redrawAll c.chartGroup] }

/-- The renderGroup method.  The source invokes the commit handler with the
flag false here as well (base-mixin.js line 867), and the callback renders
the group on success. -/
def Chart.renderGroup (c : Chart) : Chart :=
  match c.commitHandler with
  | some h =>
      let c1 := { c with commitCalls := c.commitCalls ++ [false] }
      (h false).foldl
        (fun acc e => commitCallback acc (FanOut.renderAll acc.chartGroup) e) c1
  | none => { c with fanOuts := c.fanOuts ++ [FanOut.renderAll c.chartGroup] }

/-- A chart in its post-constructor state: empty filter list, default
handlers, no dimension, default geometry configuration. -/
def baseChart : Chart where
  filters := []
  dimension := none
  filterHandler := _defaultFilterHandler
  hasFilterHandler := _defaultHasFilterHandler
  removeFilterHandler := _defaultRemoveFilterHandler
  addFilterHandler := _defaultAddFilterHandler
  resetFilterHandler := _defaultResetFilterHandler
  dimOps := []
  filteredEvents := []
  firedEvents := []
  commitHandler := none
  commitCalls := []
  consoleLog := []
  fanOuts := []
  chartGroup := "default"
  mandatoryAttributesList := some ["dimension", "group"]
  attrs := fun _ => some false
  anchorName := "chart1"
  doRenderCount := 0
  widthCache := none
  heightCache := none
  widthCalc := SizeCalc.defaultCalc
  heightCalc := SizeCalc.defaultCalc
  minWidth := 200
  minHeight := 200
  anchorBoxWidth := none
  anchorBoxHeight := none
  measureCount := 0
  transitionDuration := 750
  hasSvg := false
  pendingTransitionEvents := []

/-- Falsity of the mandatory-attribute check for one name: the member is
absent or falsy, or calling it returns a falsy value. -/
def attrFalsy (c : Chart) (a : String) : Prop := c.attrs a ≠ some true

/-- List shapes falling into the last branch of the default filter handler:
neither empty, nor a single plain value, nor a single RangedFilter. -/
def otherShape : List Filter → Prop
  | [] => False
  | [Filter.value _] => False
  | [Filter.tagged t] => t.filterType ≠ FilterType.rangedFilter
  | _ :: _ :: _ => True

/-- Modelled from the claim wording for the predicate branch of the policy
table: an element matches a datum when it satisfies its own isFiltered
predicate (tagged case) or contains the datum under the equal-or-within
comparison (plain case). -/
def claimPredicateMatches (f : Filter) (d : Int) : Prop :=
  match f with
  | Filter.tagged t => t.isFiltered d = true
  | Filter.value v => v = d

/-- A tagged filter whose isFiltered predicate accepts everything. -/
def tagAccepting : TaggedFilter where
  filterType := FilterType.twoDimensionalFilter
  isFiltered := fun _ => true
  components := [10, 20]

/-- A RangedFilter over the half-open interval from 10 to 20. -/
def tagRanged : TaggedFilter where
  filterType := FilterType.rangedFilter
  isFiltered := fun d => decide (10 ≤ d) && decide (d < 20)
  components := [10, 20]

/-- A chart holding one predicate-tagged filter. -/
def chartC2x : Chart := { baseChart with filters := [Filter.tagged tagAccepting] }

/-- A chart holding one plain filter value. -/
def chartC2w : Chart := { baseChart with filters := [Filter.value 7] }

/-- A chart with a dimension bound and default handlers. -/
def chartC3w : Chart := { baseChart with dimension := some true }

/-- A chart whose filter list holds 5 then 3, in that insertion order. -/
def chartC6x : Chart :=
  { baseChart with filters := [Filter.value 5, Filter.value 3] }

/-- A chart whose filter list holds only 3. -/
def chartC6w : Chart := { baseChart with filters := [Filter.value 3] }

/-- A chart with the default reset handler but a custom filter handler that
records a transformed list, as the applyFilters contract permits. -/
def chartC7x : Chart :=
  { baseChart with
      dimension := some true,
      filterHandler := fun _ => ([DimOp.clear], some [Filter.value 1]) }

/-- A chart with default handlers, a dimension, and one stored filter. -/
def chartC7w : Chart :=
  { baseChart with dimension := some true, filters := [Filter.value 2] }

/-- A chart whose commit handler calls back once with an error. -/
def chartC8err : Chart :=
  { baseChart with commitHandler := some (fun _ => [some "failed"]) }

/-- A chart whose commit handler calls back once with no error. -/
def chartC8ok : Chart :=
  { baseChart with commitHandler := some (fun _ => [none]) }

/-- A chart with a commit handler that never invokes its callback, enough to
observe which flag the group methods pass to it. -/
def chartC1x : Chart :=
  { baseChart with commitHandler := some (fun _ => []) }

/-- A chart with no dimension bound and one stored filter. -/
def chartC10w : Chart := { baseChart with filters := [Filter.value 9] }

/- ------------------------------------------------------------------ -/
/- Helper lemmas                                                      -/
/- ------------------------------------------------------------------ -/

theorem jsBetween_self (f : Filter) : jsBetween f f = true := by
  cases f <;> simp [jsBetween]

theorem jsBetween_comm (a b : Filter) : jsBetween a b = jsBetween b a := by
  cases a <;> cases b <;> simp [jsBetween] <;> exact eq_comm

theorem removeFilterHandler_append (fs : List Filter) (v : Filter)
    (h : ∀ g ∈ fs, jsBetween g v = false) :
    _defaultRemoveFilterHandler (fs ++ [v]) v = fs := by
  induction fs with
  | nil => simp [_defaultRemoveFilterHandler, jsBetween_self]
  | cons g gs ih =>
      have hg : jsBetween g v = false := h g (by simp)
      simp only [List.cons_append, _defaultRemoveFilterHandler, hg,
        Bool.false_eq_true, if_false, List.append_eq]
      rw [ih fun x hx => h x (by simp [hx])]

theorem activateRenderlets_caches (c : Chart) (ev : Option EventName) :
    (c.activateRenderlets ev).widthCache = c.widthCache ∧
    (c.activateRenderlets ev).heightCache = c.heightCache := by
  unfold Chart.activateRenderlets
  dsimp only
  split <;> exact ⟨rfl, rfl⟩

/- ------------------------------------------------------------------ -/
/- Claim theorems                                                     -/
/- ------------------------------------------------------------------ -/

/-- Claim C1: the claim states that renderGroup invokes the commit handler
with first argument true.  The source invokes the handler with false on both
the render and the redraw path (base-mixin.js lines 844 and 867), although
the commitHandler doc comment in the same file says the flag is true for a
render: a commit handler cannot distinguish renderGroup from redrawGroup. -/
theorem renderGroup_commit_flag :
    (chartC1x.renderGroup).commitCalls = [false] ∧
    (chartC1x.redrawGroup).commitCalls = [false] ∧
    (chartC1x.renderGroup).commitCalls ≠ [true] := by
  refine ⟨rfl, rfl, ?_⟩
  decide

/-- Claim C2 counterexample: the default has-filter handler never consults
the isFiltered predicate of a tagged element; it applies only the coerced
containment comparison, which is false between a plain value and a tagged
filter.  So hasFilter returns false on a chart holding a tagged filter whose
isFiltered accepts the argument. -/
theorem hasFilter_ignores_isFiltered :
    tagAccepting.isFiltered 5 = true ∧
    Chart.hasFilter chartC2x (some (Filter.value 5)) = false := ⟨rfl, rfl⟩

/-- Claim C2 (amended): with the default has-filter handler, hasFilter with
an argument returns true exactly when some element of the current filter
list passes the equal-or-within containment check against the argument (the
isFiltered predicate of a tagged element is not consulted); with no argument
it returns true exactly when the filter list is non-empty. -/
theorem hasFilter_default_containment (c : Chart)
    (h : c.hasFilterHandler = _defaultHasFilterHandler) :
    (∀ f : Filter, c.hasFilter (some f) = true ↔
        ∃ g ∈ c.filters, jsBetween f g = true) ∧
    (c.hasFilter none = true ↔ c.filters ≠ []) := by
  constructor
  · intro f
    simp [Chart.hasFilter, h, _defaultHasFilterHandler, List.any_eq_true]
  · simp [Chart.hasFilter, h, _defaultHasFilterHandler, List.length_pos]

/-- Claim C2 witness: the amended statement evaluated on a concrete chart. -/
theorem hasFilter_default_containment_witness :
    Chart.hasFilter chartC2w (some (Filter.value 7)) = true ∧
    (Chart.hasFilter chartC2w none = true ↔ chartC2w.filters ≠ []) := by
  constructor
  · exact ((hasFilter_default_containment chartC2w rfl).1 (Filter.value 7)).mpr
      ⟨Filter.value 7, by simp [chartC2w, baseChart], jsBetween_self _⟩
  · exact (hasFilter_default_containment chartC2w rfl).2

/-- Claim C7 counterexample: a chart keeping the default reset filter handler
but using a filter handler that records a transformed list (which the
applyFilters contract explicitly allows) ends filter(null) with a non-empty
filter list and hasFilter() true. -/
theorem filter_null_not_empty :
    chartC7x.resetFilterHandler = _defaultResetFilterHandler ∧
    (chartC7x.filter FilterArg.null).filters = [Filter.value 1] ∧
    (chartC7x.filter FilterArg.null).hasFilter none = true := ⟨rfl, rfl, rfl⟩

/-- Claim C7 (amended): with the default reset, filter-apply and has-filter
handlers, filter(null) leaves the filter list empty regardless of prior
state, and a subsequent hasFilter() with no argument returns false. -/
theorem filter_null_empties (c : Chart)
    (hRs : c.resetFilterHandler = _defaultResetFilterHandler)
    (hF : c.filterHandler = _defaultFilterHandler)
    (hH : c.hasFilterHandler = _defaultHasFilterHandler) :
    (c.filter FilterArg.null).filters = [] ∧
    (c.filter FilterArg.null).hasFilter none = false := by
  rcases hd : c.dimension with _ | b
  · simp [Chart.filter, Chart.applyFilters, Chart.hasFilter, hd, hRs, hF, hH,
      _defaultResetFilterHandler, _defaultFilterHandler,
      _defaultHasFilterHandler]
  · cases b <;>
      simp [Chart.filter, Chart.applyFilters, Chart.hasFilter, hd, hRs, hF, hH,
        _defaultResetFilterHandler, _defaultFilterHandler, _defaultFilterDimOp,
        _defaultHasFilterHandler]

/-- Claim C7 witness: the amended statement evaluated on a concrete chart. -/
theorem filter_null_empties_witness :
    (chartC7w.filter FilterArg.null).filters = [] ∧
    (chartC7w.filter FilterArg.null).hasFilter none = false :=
  filter_null_empties chartC7w rfl rfl rfl

/-- Claim C8: with a bound commit handler that calls its callback once with
an error, a redrawGroup or renderGroup call performs zero group-wide fan-out
passes and logs the error; with one that calls back once with no error,
exactly one fan-out pass happens; without a commit handler the fan-out
happens immediately within the call. -/
theorem commit_gate_fanout (c : Chart) (h : Bool → List (Option String))
    (e : String) :
    (c.commitHandler = some h → h false = [some e] →
      (c.redrawGroup).fanOuts = c.fanOuts ∧
      (c.renderGroup).fanOuts = c.fanOuts ∧
      (c.redrawGroup).consoleLog = c.consoleLog ++ [e]) ∧
    (c.commitHandler = some h → h false = [none] →
      (c.redrawGroup).fanOuts = c.fanOuts ++ [FanOut.redrawAll c.chartGroup] ∧
      (c.renderGroup).fanOuts = c.fanOuts ++ [FanOut.renderAll c.chartGroup]) ∧
    (c.commitHandler = none →
      (c.redrawGroup).fanOuts = c.fanOuts ++ [FanOut.redrawAll c.chartGroup] ∧
      (c.renderGroup).fanOuts = c.fanOuts ++ [FanOut.renderAll c.chartGroup]) := by
  refine ⟨fun h1 h2 => ?_, fun h1 h2 => ?_, fun h1 => ?_⟩
  · simp [Chart.redrawGroup, Chart.renderGroup, commitCallback, h1, h2]
  · simp [Chart.redrawGroup, Chart.renderGroup, commitCallback, h1, h2]
  · simp [Chart.redrawGroup, Chart.renderGroup, h1]

/-- Claim C8 witness: the commit gate evaluated on concrete charts with an
erroring and a succeeding handler. -/
theorem commit_gate_fanout_witness :
    ((chartC8err.redrawGroup).fanOuts = chartC8err.fanOuts ∧
     (chartC8err.renderGroup).fanOuts = chartC8err.fanOuts ∧
     (chartC8err.redrawGroup).consoleLog = chartC8err.consoleLog ++ ["failed"]) ∧
    ((chartC8ok.redrawGroup).fanOuts =
        chartC8ok.fanOuts ++ [FanOut.redrawAll chartC8ok.chartGroup] ∧
     (chartC8ok.renderGroup).fanOuts =
        chartC8ok.fanOuts ++ [FanOut.renderAll chartC8ok.chartGroup]) :=
  ⟨(commit_gate_fanout chartC8err (fun _ => [some "failed"]) "failed").1 rfl rfl,
   (commit_gate_fanout chartC8ok (fun _ => [none]) "unused").2.1 rfl rfl⟩

/-- Claim C9: every width or height setter call clears the corresponding
cache; after width(300), width() returns 300, does not measure the anchor,
and further width() calls return 300 leaving the chart unchanged; after
width(null), the next width() call measures the anchor exactly once and
returns the default calculator value; render clears both cached sizes. -/
theorem width_cache_invalidation :
    (∀ (c : Chart) (a : SizeArg), (c.widthSet a).widthCache = none) ∧
    (∀ (c : Chart) (a : SizeArg), (c.heightSet a).heightCache = none) ∧
    (∀ c : Chart,
      ((c.widthSet (SizeArg.num 300)).width).2 = 300 ∧
      ((c.widthSet (SizeArg.num 300)).width).1.measureCount = c.measureCount ∧
      (((c.widthSet (SizeArg.num 300)).width).1.width).2 = 300 ∧
      (((c.widthSet (SizeArg.num 300)).width).1.width).1 =
        ((c.widthSet (SizeArg.num 300)).width).1) ∧
    (∀ c : Chart,
      ((c.widthSet SizeArg.nullArg).width).2 =
        defaultSizeValue c.anchorBoxWidth c.minWidth ∧
      ((c.widthSet SizeArg.nullArg).width).1.measureCount =
        c.measureCount + 1) ∧
    (∀ c : Chart,
      (c.render).1.widthCache = none ∧ (c.render).1.heightCache = none) := by
  refine ⟨fun c a => rfl, fun c a => rfl, fun c => ⟨rfl, rfl, rfl, rfl⟩,
    fun c => ⟨rfl, rfl⟩, fun c => ?_⟩
  unfold Chart.render
  dsimp only
  split
  · exact ⟨rfl, rfl⟩
  · exact ⟨(activateRenderlets_caches _ _).1, (activateRenderlets_caches _ _).2⟩

/-- Claim C10: applyFilters returns the candidate list unchanged when no
dimension is bound, when the bound dimension lacks a filter method, or when
the installed filter handler returns a falsy value; consequently
filter(value) still records the toggled filter list and fires the filtered
event even with no data source attached. -/
theorem applyFilters_passthrough (c : Chart) :
    (c.dimension = none → ∀ fs, c.applyFilters fs = (c, fs)) ∧
    (c.dimension = some false → ∀ fs, c.applyFilters fs = (c, fs)) ∧
    (c.dimension = some true → ∀ fs ops, c.filterHandler fs = (ops, none) →
      (c.applyFilters fs).2 = fs) ∧
    (c.dimension = none → ∀ v : Filter,
      (c.filter (FilterArg.single v)).filters =
        (if c.hasFilterHandler c.filters (some v) then
          c.removeFilterHandler c.filters v
         else c.addFilterHandler c.filters v) ∧
      (c.filter (FilterArg.single v)).filteredEvents =
        c.filteredEvents ++ [FilterArg.single v]) := by
  refine ⟨fun h fs => ?_, fun h fs => ?_, fun h fs ops hh => ?_,
    fun h v => ⟨?_, ?_⟩⟩
  · simp [Chart.applyFilters, h]
  · simp [Chart.applyFilters, h]
  · simp [Chart.applyFilters, h, hh]
  · simp [Chart.filter, Chart.applyFilters, h]
  · simp [Chart.filter, Chart.applyFilters, h]

/-- Claim C10 witness: the passthrough statement evaluated on a concrete
chart without a dimension. -/
theorem applyFilters_passthrough_witness :
    chartC10w.applyFilters [Filter.value 1] = (chartC10w, [Filter.value 1]) ∧
    ((chartC10w.filter (FilterArg.single (Filter.value 2))).filters =
        (if chartC10w.hasFilterHandler chartC10w.filters (some (Filter.value 2))
         then chartC10w.removeFilterHandler chartC10w.filters (Filter.value 2)
         else chartC10w.addFilterHandler chartC10w.filters (Filter.value 2)) ∧
      (chartC10w.filter (FilterArg.single (Filter.value 2))).filteredEvents =
        chartC10w.filteredEvents ++ [FilterArg.single (Filter.value 2)]) :=
  ⟨(applyFilters_passthrough chartC10w).1 rfl [Filter.value 1],
   (applyFilters_passthrough chartC10w).2.2.2 rfl (Filter.value 2)⟩

/-- With the default filter handler, applyFilters returns the candidate list
unchanged and the chart keeps its stored filters, handlers and dimension. -/
theorem applyFilters_default (c : Chart) (fs : List Filter)
    (hF : c.filterHandler = _defaultFilterHandler) :
    (c.applyFilters fs).2 = fs ∧
    (c.applyFilters fs).1.filters = c.filters ∧
    (c.applyFilters fs).1.hasFilterHandler = c.hasFilterHandler ∧
    (c.applyFilters fs).1.removeFilterHandler = c.removeFilterHandler ∧
    (c.applyFilters fs).1.addFilterHandler = c.addFilterHandler ∧
    (c.applyFilters fs).1.filterHandler = c.filterHandler ∧
    (c.applyFilters fs).1.dimension = c.dimension := by
  rcases hd : c.dimension with _ | b
  · simp [Chart.applyFilters, hd]
  · cases b
    · simp [Chart.applyFilters, hd]
    · simp [Chart.applyFilters, hd, hF, _defaultFilterHandler]

/-- The stored filter list after a single-value toggle is the applyFilters
result on the toggled candidate list. -/
theorem filter_single_filters (c : Chart) (v : Filter) :
    (c.filter (FilterArg.single v)).filters =
      (c.applyFilters
        (if c.hasFilterHandler c.filters (some v) then
          c.removeFilterHandler c.filters v
         else c.addFilterHandler c.filters v)).2 := rfl

/-- A single-value toggle keeps the handler fields and the dimension of the
chart returned by applyFilters. -/
theorem filter_single_fields (c : Chart) (v : Filter) :
    (c.filter (FilterArg.single v)).hasFilterHandler =
      (c.applyFilters
        (if c.hasFilterHandler c.filters (some v) then
          c.removeFilterHandler c.filters v
         else c.addFilterHandler c.filters v)).1.hasFilterHandler ∧
    (c.filter (FilterArg.single v)).removeFilterHandler =
      (c.applyFilters
        (if c.hasFilterHandler c.filters (some v) then
          c.removeFilterHandler c.filters v
         else c.addFilterHandler c.filters v)).1.removeFilterHandler ∧
    (c.filter (FilterArg.single v)).addFilterHandler =
      (c.applyFilters
        (if c.hasFilterHandler c.filters (some v) then
          c.removeFilterHandler c.filters v
         else c.addFilterHandler c.filters v)).1.addFilterHandler ∧
    (c.filter (FilterArg.single v)).filterHandler =
      (c.applyFilters
        (if c.hasFilterHandler c.filters (some v) then
          c.removeFilterHandler c.filters v
         else c.addFilterHandler c.filters v)).1.filterHandler ∧
    (c.filter (FilterArg.single v)).dimension =
      (c.applyFilters
        (if c.hasFilterHandler c.filters (some v) then
          c.removeFilterHandler c.filters v
         else c.addFilterHandler c.filters v)).1.dimension :=
  ⟨rfl, rfl, rfl, rfl, rfl⟩

/-- Claim C6 counterexample: toggling 5 twice on the list holding 5 then 3
removes the first match and re-appends 5 at the end, so the final list is 3
then 5 and differs from the pre-toggle insertion order. -/
theorem filter_toggle_reorders :
    ((chartC6x.filter (FilterArg.single (Filter.value 5))).filter
        (FilterArg.single (Filter.value 5))).filters =
      [Filter.value 3, Filter.value 5] ∧
    chartC6x.filters = [Filter.value 5, Filter.value 3] ∧
    [Filter.value 3, Filter.value 5] ≠
      ([Filter.value 5, Filter.value 3] : List Filter) := by
  refine ⟨rfl, rfl, ?_⟩
  intro h
  simp only [List.cons.injEq, Filter.value.injEq] at h
  omega

/-- Claim C6 (amended): with the default filter handlers and a non-null,
non-nested value v that no current filter matches under the containment
check, filter(v) twice restores the pre-toggle filter list exactly; when v
is already matched, the pair of toggles removes the first matching element
and re-appends v at the end, which can reorder the list. -/
theorem filter_toggle_restores (c : Chart) (v : Filter)
    (hF : c.filterHandler = _defaultFilterHandler)
    (hH : c.hasFilterHandler = _defaultHasFilterHandler)
    (hR : c.removeFilterHandler = _defaultRemoveFilterHandler)
    (hA : c.addFilterHandler = _defaultAddFilterHandler)
    (hno : c.hasFilter (some v) = false) :
    ((c.filter (FilterArg.single v)).filter (FilterArg.single v)).filters =
      c.filters := by
  have hany : (c.filters.any fun g => jsBetween v g) = false := by
    have h0 := hno
    simp only [Chart.hasFilter, hH, _defaultHasFilterHandler] at h0
    exact h0
  have hall : ∀ g ∈ c.filters, jsBetween g v = false := by
    intro g hg
    rw [jsBetween_comm]
    have := List.any_eq_false.mp hany g hg
    simpa using this
  set c1 := c.filter (FilterArg.single v) with hc1
  have hcond1 : c.hasFilterHandler c.filters (some v) = false := by
    rw [hH]; exact hany
  have hstep1 : c1.filters = c.filters ++ [v] := by
    rw [hc1, filter_single_filters, hcond1]
    simp only [Bool.false_eq_true, if_false, hA, _defaultAddFilterHandler]
    exact (applyFilters_default c (c.filters ++ [v]) hF).1
  have h1has : c1.hasFilterHandler = c.hasFilterHandler :=
    (filter_single_fields c v).1.trans (applyFilters_default c _ hF).2.2.1
  have h1rem : c1.removeFilterHandler = c.removeFilterHandler :=
    (filter_single_fields c v).2.1.trans
      (applyFilters_default c _ hF).2.2.2.1
  have h1fh : c1.filterHandler = c.filterHandler :=
    (filter_single_fields c v).2.2.2.1.trans
      (applyFilters_default c _ hF).2.2.2.2.2.1
  have hcond2 : _defaultHasFilterHandler (c.filters ++ [v]) (some v) = true := by
    simp [_defaultHasFilterHandler, List.any_append, jsBetween_self]
  rw [filter_single_filters c1 v, h1has, hH, hstep1, hcond2, if_pos rfl,
    h1rem, hR, removeFilterHandler_append c.filters v hall]
  exact (applyFilters_default c1 c.filters (h1fh.trans hF)).1

/-- Claim C6 witness: the amended statement on a concrete chart whose filter
list does not yet match the toggled value. -/
theorem filter_toggle_restores_witness :
    ((chartC6w.filter (FilterArg.single (Filter.value 5))).filter
        (FilterArg.single (Filter.value 5))).filters = chartC6w.filters :=
  filter_toggle_restores chartC6w (Filter.value 5) rfl rfl rfl rfl rfl

/-- Claim C4: the default filter handler reproduces the apply-policy table:
an empty list clears the dimension; a single element that is not
predicate-tagged yields an exact-match call with that element; a single
RangedFilter yields a range call with that element; any other shape installs
a predicate accepting a datum exactly when some element either satisfies its
own isFiltered predicate or contains the datum under the equal-or-within
comparison. -/
theorem default_filter_policy :
    (_defaultFilterHandler []).1 = [DimOp.clear] ∧
    (∀ v : Int, (_defaultFilterHandler [Filter.value v]).1 =
        [DimOp.filterExact (Filter.value v)]) ∧
    (∀ t : TaggedFilter, t.filterType = FilterType.rangedFilter →
        (_defaultFilterHandler [Filter.tagged t]).1 =
          [DimOp.filterRange (Filter.tagged t)]) ∧
    (∀ fs : List Filter, otherShape fs →
        ∃ p : Int → Bool,
          (_defaultFilterHandler fs).1 = [DimOp.filterFunction p] ∧
          ∀ d : Int, p d = true ↔ ∃ f ∈ fs, claimPredicateMatches f d) := by
  have key : ∀ (fs : List Filter) (d : Int),
      defaultFilterFunctionBody fs d = true ↔
        ∃ f ∈ fs, claimPredicateMatches f d := by
    intro fs d
    simp only [defaultFilterFunctionBody, List.any_eq_true]
    refine exists_congr fun f => and_congr_right fun _ => ?_
    cases f with
    | value v => simp [jsBetweenDatum, claimPredicateMatches]
    | tagged t => simp [jsBetweenDatum, claimPredicateMatches]
  refine ⟨rfl, fun v => rfl, fun t ht => ?_, fun fs hfs => ?_⟩
  · simp [_defaultFilterHandler, _defaultFilterDimOp, ht]
  · rcases fs with _ | ⟨f1, _ | ⟨f2, rest⟩⟩
    · exact hfs.elim
    · cases f1 with
      | value v => exact hfs.elim
      | tagged t =>
          have ht : t.filterType ≠ FilterType.rangedFilter := hfs
          refine ⟨defaultFilterFunctionBody [Filter.tagged t], ?_,
            key [Filter.tagged t]⟩
          simp [_defaultFilterHandler, _defaultFilterDimOp, ht]
    · cases f1 with
      | value v =>
          exact ⟨defaultFilterFunctionBody (Filter.value v :: f2 :: rest), rfl,
            key (Filter.value v :: f2 :: rest)⟩
      | tagged t =>
          exact ⟨defaultFilterFunctionBody (Filter.tagged t :: f2 :: rest), rfl,
            key (Filter.tagged t :: f2 :: rest)⟩

/-- Claim C4 witness: the policy evaluated on a concrete RangedFilter and on
a concrete two-element value list. -/
theorem default_filter_policy_witness :
    ((_defaultFilterHandler [Filter.tagged tagRanged]).1 =
        [DimOp.filterRange (Filter.tagged tagRanged)]) ∧
    (∃ p : Int → Bool,
      (_defaultFilterHandler [Filter.value 5, Filter.value 7]).1 =
        [DimOp.filterFunction p] ∧
      ∀ d : Int, p d = true ↔
        ∃ f ∈ [Filter.value 5, Filter.value 7], claimPredicateMatches f d) :=
  ⟨default_filter_policy.2.2.1 tagRanged rfl,
   default_filter_policy.2.2.2 [Filter.value 5, Filter.value 7] trivial⟩

/-- Claim C3: with the default handlers and a filterable dimension bound,
replaceFilter(v) leaves the same final filter list as filter(null) followed
by filter(v), and invokes the data-source apply operation exactly once,
while the two-step sequence invokes it twice. -/
theorem replaceFilter_single_apply (c : Chart) (v : Filter)
    (hF : c.filterHandler = _defaultFilterHandler)
    (hH : c.hasFilterHandler = _defaultHasFilterHandler)
    (hR : c.removeFilterHandler = _defaultRemoveFilterHandler)
    (hA : c.addFilterHandler = _defaultAddFilterHandler)
    (hRs : c.resetFilterHandler = _defaultResetFilterHandler)
    (hd : c.dimension = some true) :
    (c.replaceFilter (FilterArg.single v)).filters =
      ((c.filter FilterArg.null).filter (FilterArg.single v)).filters ∧
    (c.replaceFilter (FilterArg.single v)).dimOps.length =
      c.dimOps.length + 1 ∧
    ((c.filter FilterArg.null).filter (FilterArg.single v)).dimOps.length =
      c.dimOps.length + 2 := by
  refine ⟨?_, ?_, ?_⟩ <;>
    simp [Chart.replaceFilter, Chart.filter, Chart.applyFilters, hF, hH, hR,
      hA, hRs, hd, _defaultFilterHandler, _defaultHasFilterHandler,
      _defaultAddFilterHandler, _defaultResetFilterHandler,
      _defaultFilterDimOp]

/-- Claim C3 witness: the statement evaluated on a concrete chart with a
dimension bound. -/
theorem replaceFilter_single_apply_witness :
    (chartC3w.replaceFilter (FilterArg.single (Filter.value 5))).filters =
      ((chartC3w.filter FilterArg.null).filter
          (FilterArg.single (Filter.value 5))).filters ∧
    (chartC3w.replaceFilter (FilterArg.single (Filter.value 5))).dimOps.length =
      chartC3w.dimOps.length + 1 ∧
    ((chartC3w.filter FilterArg.null).filter
        (FilterArg.single (Filter.value 5))).dimOps.length =
      chartC3w.dimOps.length + 2 :=
  replaceFilter_single_apply chartC3w (Filter.value 5) rfl rfl rfl rfl rfl rfl

/-- The forEach over the mandatory list surfaces an InvalidState error for
the first falsy attribute whenever the list contains a falsy one. -/
theorem checkMandatoryList_failure (c : Chart) (l : List String)
    (h : ∃ a ∈ l, attrFalsy c a) :
    ∃ a, a ∈ l ∧ attrFalsy c a ∧
      c.checkMandatoryList l =
        some (DcError.invalidState (mandatoryMessage a c.anchorName)) := by
  induction l with
  | nil => simp at h
  | cons b rest ih =>
      by_cases hb : c.attrs b = some true
      · obtain ⟨a, ha, hfa⟩ := h
        rcases List.mem_cons.mp ha with rfl | har
        · exact absurd hb hfa
        · obtain ⟨a', h1, h2, h3⟩ := ih ⟨a, har, hfa⟩
          refine ⟨a', List.mem_cons_of_mem _ h1, h2, ?_⟩
          simpa [Chart.checkMandatoryList, Chart.checkForMandatoryAttributes,
            hb] using h3
      · refine ⟨b, by simp, hb, ?_⟩
        rcases hv : c.attrs b with _ | bv
        · simp [Chart.checkMandatoryList, Chart.checkForMandatoryAttributes,
            hv]
        · cases bv
          · simp [Chart.checkMandatoryList, Chart.checkForMandatoryAttributes,
              hv]
          · exact absurd hv hb

/-- The mandatory check reads only the attribute accessors and the anchor
name of the chart. -/
theorem checkMandatoryList_congr (c c' : Chart) (hA : c.attrs = c'.attrs)
    (hN : c.anchorName = c'.anchorName) (l : List String) :
    c.checkMandatoryList l = c'.checkMandatoryList l := by
  induction l with
  | nil => rfl
  | cons a rest ih =>
      simp only [Chart.checkMandatoryList, Chart.checkForMandatoryAttributes,
        hA, hN, ih]

/-- Claim C5: when some name in the mandatory attribute list has a falsy
zero-argument accessor, render fails with an InvalidState error naming a
failing attribute together with the anchor id of the chart, and the
type-specific draw hook is never invoked in that call. -/
theorem render_mandatory_invalid_state (c : Chart) (l : List String)
    (a : String) (hl : c.mandatoryAttributesList = some l) (ha : a ∈ l)
    (hf : attrFalsy c a) :
    ∃ a', a' ∈ l ∧ attrFalsy c a' ∧
      (c.render).2 =
        some (DcError.invalidState (mandatoryMessage a' c.anchorName)) ∧
      (c.render).1.doRenderCount = c.doRenderCount := by
  obtain ⟨a', h1, h2, h3⟩ := checkMandatoryList_failure c l ⟨a, ha, hf⟩
  refine ⟨a', h1, h2, ?_, ?_⟩ <;>
  · unfold Chart.render
    dsimp only
    rw [hl]
    dsimp only
    rw [checkMandatoryList_congr
      { c with widthCache := none, heightCache := none,
               firedEvents := c.firedEvents ++ [EventName.preRender],
               mandatoryAttributesList := some l } c rfl rfl l, h3]

/-- Claim C5 witness: render on a chart whose dimension accessor is falsy. -/
theorem render_mandatory_invalid_state_witness :
    ∃ a', a' ∈ ["dimension", "group"] ∧ attrFalsy baseChart a' ∧
      (baseChart.render).2 =
        some (DcError.invalidState (mandatoryMessage a' baseChart.anchorName)) ∧
      (baseChart.render).1.doRenderCount = baseChart.doRenderCount :=
  render_mandatory_invalid_state baseChart ["dimension", "group"] "dimension"
    rfl (by simp) (by intro h; exact Bool.noConfusion (Option.some.inj h))

end DC
